import Mathlib

/-!
Shallow embedding of the zap-desktop node/connection lifecycle core:
the lnd redux module (action constants, action handlers, reducer,
sync-percentage selector), the `lndSyncStatus` thunk, the
`WalletUnlocker` service connector and its state machine, the
`ZapController` state machine with its `connectLnd` error
classification, the `shutdownNeutrino` bounded shutdown, and the
`openExternal` whitelist guard from the preload script.

JavaScript number arithmetic on block heights is idealized as exact
rational arithmetic over natural-number counters; asynchronous
collaborators (gRPC dial results, process events, timers) are passed in
as explicit oracle values, and side effects are returned as explicit
event lists.
-/

/-! ### Redux action type constants (reducers/lnd) -/

def SET_SYNC_STATUS_PENDING : String := "SET_SYNC_STATUS_PENDING"

def SET_SYNC_STATUS_WAITING : String := "SET_SYNC_STATUS_WAITING"

def SET_SYNC_STATUS_IN_PROGRESS : String := "SET_SYNC_STATUS_IN_PROGRESS"

def SET_SYNC_STATUS_COMPLETE : String := "SET_SYNC_STATUS_COMPLETE"

def RECEIVE_CURRENT_BLOCK_HEIGHT : String := "RECEIVE_CURRENT_BLOCK_HEIGHT"

def RECEIVE_LND_BLOCK_HEIGHT : String := "RECEIVE_LND_BLOCK_HEIGHT"

def RECEIVE_LND_CFILTER_HEIGHT : String := "RECEIVE_LND_CFILTER_HEIGHT"

def SET_LIGHTNING_WALLET_ACTIVE : String := "SET_LIGHTNING_WALLET_ACTIVE"

/-- The slice of redux state owned by the lnd reducer (`initialState`). -/
structure LndState where
  syncStatus : String
  lightningGrpcActive : Bool
  blockHeight : Nat
  lndBlockHeight : Nat
  lndCfilterHeight : Nat
deriving DecidableEq

/-- A dispatched redux action: a `type` tag plus the height payload
fields used by the three height actions (a field not carried by an
action is left at its default, and is never read by the handlers of the
other actions). -/
structure ReduxAction where
  type : String
  blockHeight : Nat := 0
  lndBlockHeight : Nat := 0
  lndCfilterHeight : Nat := 0
deriving DecidableEq

/-- The `initialState` of the lnd reducer. -/
def initialState : LndState :=
  { syncStatus := "pending"
    lightningGrpcActive := false
    blockHeight := 0
    lndBlockHeight := 0
    lndCfilterHeight := 0 }

/-- The keys of the `ACTION_HANDLERS` object: the eight handled action
types. -/
def handledTypes : List String :=
  [SET_SYNC_STATUS_PENDING, SET_SYNC_STATUS_WAITING, SET_SYNC_STATUS_IN_PROGRESS,
   SET_SYNC_STATUS_COMPLETE, RECEIVE_CURRENT_BLOCK_HEIGHT, RECEIVE_LND_BLOCK_HEIGHT,
   RECEIVE_LND_CFILTER_HEIGHT, SET_LIGHTNING_WALLET_ACTIVE]

/-- The reducer `lndReducer(state, action)`: looks up `ACTION_HANDLERS[action.type]`
and applies it, returning the state unchanged when no handler is
registered.  The key lookup in the `ACTION_HANDLERS` object is embedded
as a chain of equality tests against the (pairwise distinct) keys; each
handler spreads the previous state and replaces a single field. -/
def lndReducer (state : LndState) (action : ReduxAction) : LndState :=
  if action.type = SET_SYNC_STATUS_PENDING then { state with syncStatus := "pending" }
  else if action.type = SET_SYNC_STATUS_WAITING then { state with syncStatus := "waiting" }
  else if action.type = SET_SYNC_STATUS_IN_PROGRESS then { state with syncStatus := "in-progress" }
  else if action.type = SET_SYNC_STATUS_COMPLETE then { state with syncStatus := "complete" }
  else if action.type = RECEIVE_CURRENT_BLOCK_HEIGHT then
    { state with blockHeight := action.blockHeight }
  else if action.type = RECEIVE_LND_BLOCK_HEIGHT then
    { state with lndBlockHeight := action.lndBlockHeight }
  else if action.type = RECEIVE_LND_CFILTER_HEIGHT then
    { state with lndCfilterHeight := action.lndCfilterHeight }
  else if action.type = SET_LIGHTNING_WALLET_ACTIVE then
    { state with lightningGrpcActive := true }
  else state

/-- The selector `lndSelectors.syncPercentage`: computes
`Math.floor(((lndBlockHeight + lndCfilterHeight) / (blockHeight * 2)) * 100)`
and returns `undefined` when that value is `Infinity` or `NaN`.  With
non-negative integer counters the value is `Infinity` or `NaN` exactly
when `blockHeight = 0` (positive over zero is `Infinity`, zero over
zero is `NaN`), so the guard is embedded as the zero test on the
reference height; otherwise the JS double arithmetic is idealized as
exact rational arithmetic and `Math.floor` as the integer floor (the
final `parseInt(percentage, 10)` is the identity on a finite integer). -/
def syncPercentage (blockHeight lndBlockHeight lndCfilterHeight : Nat) : Option ℤ :=
  if blockHeight = 0 then
    none
  else
    some ⌊(((lndBlockHeight : ℚ) + (lndCfilterHeight : ℚ)) / ((blockHeight : ℚ) * 2)) * 100⌋

/-! ### The `lndSyncStatus` thunk (reducers/lnd actions) -/

/-- One observable side effect of the `lndSyncStatus` thunk: a write to
the durable `wallet` electron-store, a dispatched plain action, a
dispatched thunk, or the desktop notification (whose title and body
strings are omitted as irrelevant payload). -/
inductive SyncEffect where
  | storeSet (key : String) (value : Bool)
  | dispatch (action : ReduxAction)
  | dispatchSetHasSynced (value : Bool)
  | dispatchFetchTicker
  | dispatchFetchBalance
  | dispatchFetchInfo
  | showNotification
deriving DecidableEq

/-- The thunk `lndSyncStatus(event, status)`: first, if
`state.info.data.identity_pubkey` is truthy (present and non-empty),
persist `pubKey + ".hasSynced" = true` to the `wallet` store; then
switch on the status string, dispatching the matching sync-status
action (`complete` additionally dispatches `setHasSynced(true)`, the
three fetch thunks and shows a notification; any other string falls to
the `default` branch dispatching `SET_SYNC_STATUS_PENDING`).  The
effects are listed in program order. -/
def lndSyncStatus (identityPubkey : Option String) (status : String) : List SyncEffect :=
  (match identityPubkey with
   | some pubKey =>
       if pubKey = "" then [] else [SyncEffect.storeSet (pubKey ++ ".hasSynced") true]
   | none => []) ++
  (if status = "waiting" then [SyncEffect.dispatch { type := SET_SYNC_STATUS_WAITING }]
   else if status = "in-progress" then
     [SyncEffect.dispatch { type := SET_SYNC_STATUS_IN_PROGRESS }]
   else if status = "complete" then
     [SyncEffect.dispatch { type := SET_SYNC_STATUS_COMPLETE },
      SyncEffect.dispatchSetHasSynced true,
      SyncEffect.dispatchFetchTicker,
      SyncEffect.dispatchFetchBalance,
      SyncEffect.dispatchFetchInfo,
      SyncEffect.showNotification]
   else [SyncEffect.dispatch { type := SET_SYNC_STATUS_PENDING }])

/-! ### javascript-state-machine and the `WalletUnlocker` connector -/

/-- Firing a transition `t` from state `st` in a javascript-state-machine
whose `transitions` table is `table` (entries `(name, from, to)`, the
from-state `"*"` matching any state).  A lookup miss is an invalid
transition, on which the default `onInvalidTransition` lifecycle hook
throws (`none`).  `hookOk = false` models an `onBefore` lifecycle hook
that fails (returns false or a rejected promise), which cancels the
transition and leaves the state unchanged. -/
def fsmFire (table : List (String × String × String)) (st t : String) (hookOk : Bool) :
    Option String :=
  match table.find? (fun e => e.1 == t && (e.2.1 == st || e.2.1 == "*")) with
  | none => none
  | some e => some (if hookOk then e.2.2 else st)

/-- The `StateMachine.factory(WalletUnlocker, ...)` table: transitions
`connect : ready → connected` and `disconnect : connected → ready`. -/
def walletUnlockerTransitions : List (String × String × String) :=
  [("connect", "ready", "connected"),
   ("disconnect", "connected", "ready")]

/-- The init state declared by the WalletUnlocker state-machine factory:
`init: ready`. -/
def walletUnlockerInit : String := "ready"

/-- The states a `WalletUnlocker` instance can be driven into through
its state machine, starting from the `init` state. -/
inductive wuReachable : String → Prop where
  | init : wuReachable walletUnlockerInit
  | step (s t : String) (hookOk : Bool) (s2 : String) :
      wuReachable s → fsmFire walletUnlockerTransitions s t hookOk = some s2 → wuReachable s2

/-- The parts of a `WalletUnlocker` instance relevant to `disconnect`:
the state-machine state and whether `this.service` holds a gRPC client
object whose channel can be closed. -/
structure WalletUnlockerObj where
  state : String
  hasService : Bool
deriving DecidableEq

/-- The hook `onBeforeDisconnect`: `if (this.service) this.service.close()`.
Returns whether `close()` was invoked. -/
def onBeforeDisconnect (w : WalletUnlockerObj) : Bool :=
  w.hasService

/-- The method `walletUnlocker.disconnect()`: the state machine fires `disconnect`;
from a state with no such transition the library throws
("transition is invalid in current state"); otherwise the
`onBeforeDisconnect` hook runs (closing the channel if one is open) and
the state moves to the transition target.  The result pairs the updated
instance with whether `close()` was invoked. -/
def wuDisconnect (w : WalletUnlockerObj) : Except String (WalletUnlockerObj × Bool) :=
  match fsmFire walletUnlockerTransitions w.state "disconnect" true with
  | none => Except.error "transition is invalid in current state"
  | some s2 => Except.ok ({ w with state := s2 }, onBeforeDisconnect w)

/-! ### `WalletUnlocker.onBeforeConnect` dial sequence -/

/-- The observable steps of `onBeforeConnect`, in program order. -/
inductive ConnEvent where
  | validateHost
  | loadProto
  | buildCreds
  | openChannel
  | waitReady
  | closeChannel
deriving DecidableEq

/-- The canonical order in which `onBeforeConnect` performs its steps. -/
def connectEventOrder : List ConnEvent :=
  [ConnEvent.validateHost, ConnEvent.loadProto, ConnEvent.buildCreds,
   ConnEvent.openChannel, ConnEvent.waitReady, ConnEvent.closeChannel]

/-- A typed failure of `onBeforeConnect`: the rejection of
`validateHost`, of one of the two credential loads, or the error
delivered by `waitForReady` (on deadline expiry, the gRPC
deadline-exceeded error). -/
inductive ConnError where
  | hostError (message : String)
  | certError (message : String)
  | macaroonError (message : String)
  | readyWaitError (message : String)
deriving DecidableEq

/-- Result of a `connect()` attempt: the steps performed, in order, and
the settlement of the returned promise. -/
structure ConnOutcome where
  events : List ConnEvent
  result : Except ConnError Unit

/-- The argument of `getDeadline` at the `waitForReady` call site:
the ready-wait is bounded by a 2 second deadline. -/
def connectDeadlineSeconds : Nat := 2

/-- The hook `WalletUnlocker.onBeforeConnect`: `validateHost(host)` first; on
success load the proto definition, build the ssl and macaroon
credentials concurrently via `Promise.all` (first failure
short-circuits; with the cert load listed first a double failure
reports the cert error), create the gRPC client (opening the channel),
and wait for the channel to become ready under the bounded deadline; if
`waitForReady` delivers an error the channel is closed
(`this.service.close()`) and the promise rejects with that error.  The
outcomes of the external collaborators (`validateHost`,
`createSslCreds`, `createMacaroonCreds`, `waitForReady`) are passed in
as oracle values. -/
def onBeforeConnect (hostCheck sslCredsResult macaroonCredsResult : Except String Unit)
    (readyError : Option String) : ConnOutcome :=
  match hostCheck with
  | Except.error m => ⟨[ConnEvent.validateHost], Except.error (ConnError.hostError m)⟩
  | Except.ok _ =>
    match sslCredsResult, macaroonCredsResult with
    | Except.error m, _ =>
        ⟨[ConnEvent.validateHost, ConnEvent.loadProto, ConnEvent.buildCreds],
         Except.error (ConnError.certError m)⟩
    | Except.ok _, Except.error m =>
        ⟨[ConnEvent.validateHost, ConnEvent.loadProto, ConnEvent.buildCreds],
         Except.error (ConnError.macaroonError m)⟩
    | Except.ok _, Except.ok _ =>
      match readyError with
      | some m =>
          ⟨[ConnEvent.validateHost, ConnEvent.loadProto, ConnEvent.buildCreds,
            ConnEvent.openChannel, ConnEvent.waitReady, ConnEvent.closeChannel],
           Except.error (ConnError.readyWaitError m)⟩
      | none =>
          ⟨[ConnEvent.validateHost, ConnEvent.loadProto, ConnEvent.buildCreds,
            ConnEvent.openChannel, ConnEvent.waitReady],
           Except.ok ()⟩

/-! ### `ZapController`: state machine and `connectLnd` error relay -/

/-- The `StateMachine.factory(ZapController, ...)` transition table. -/
def zapControllerTransitions : List (String × String × String) :=
  [("startOnboarding", "*", "onboarding"),
   ("startLnd", "onboarding", "running"),
   ("connectLnd", "onboarding", "connected"),
   ("terminate", "*", "terminated")]

/-- A JS error `code` value as compared by `onBeforeConnectLnd`: either
a string code such as `LND_GRPC_HOST_ERROR` or a numeric gRPC status
code such as `12` (`UNIMPLEMENTED`). -/
inductive ErrCode where
  | str (s : String)
  | num (n : Nat)
deriving DecidableEq

/-- The error thrown by `startLightningWallet`, as inspected by the
`catch` handler: its `code`, `message` and optional `details`
(`e.details || e.message` picks `message` when `details` is absent). -/
structure LndError where
  code : ErrCode
  message : String
  details : Option String
deriving DecidableEq

/-- The field-addressable `errors` object sent with `startLndError`. -/
structure OnboardingErrors where
  host : Option String := none
  cert : Option String := none
  macaroon : Option String := none
deriving DecidableEq

/-- The message assigned to `errors.host` when the error code is the
gRPC `UNIMPLEMENTED` status 12. -/
def unlockFirstMessage : String :=
  "Unable to connect to host. Please ensure wallet is unlocked before connecting."

/-- The `catch` block of `onBeforeConnectLnd`: starting from an empty
`errors` object, `LND_GRPC_HOST_ERROR` sets `host`;
`LND_GRPC_CERT_ERROR` sets `cert`, else `LND_GRPC_MACAROON_ERROR` sets
`macaroon`; finally code `12` sets `host` to the unlock-first message,
and every other code sets `host` to the generic unable-to-connect
message built from `e.details || e.message`. -/
def classifyConnectLndError (e : LndError) : OnboardingErrors :=
  let errors : OnboardingErrors := {}
  let errors :=
    if e.code = ErrCode.str "LND_GRPC_HOST_ERROR" then { errors with host := some e.message }
    else errors
  let errors :=
    if e.code = ErrCode.str "LND_GRPC_CERT_ERROR" then { errors with cert := some e.message }
    else if e.code = ErrCode.str "LND_GRPC_MACAROON_ERROR" then
      { errors with macaroon := some e.message }
    else errors
  if e.code = ErrCode.num 12 then
    { errors with host := some unlockFirstMessage }
  else
    { errors with host := some ("Unable to connect to host: " ++ e.details.getD e.message) }

/-- A message sent to the renderer process during `connectLnd`. -/
inductive OutMsg where
  | finishOnboarding
  | startLndError (errors : OnboardingErrors)
deriving DecidableEq

/-- The hook `onBeforeConnectLnd`: runs `startLightningWallet` (its settlement
passed as an oracle); on success sends `finishOnboarding`; on failure
classifies the error, sends `startLndError(errors)` and rethrows, which
makes the lifecycle hook fail. -/
def onBeforeConnectLnd (startResult : Except LndError Unit) :
    List OutMsg × Except LndError Unit :=
  match startResult with
  | Except.ok _ => ([OutMsg.finishOnboarding], Except.ok ())
  | Except.error e =>
      ([OutMsg.startLndError (classifyConnectLndError e)], Except.error e)

/-- The full `connectLnd` transition attempt from the `onboarding`
state: the state machine fires `connectLnd` with the
`onBeforeConnectLnd` hook; a failing hook cancels the transition,
leaving the controller in `onboarding`.  Returns the messages sent and
the controller state afterwards. -/
def connectLndFromOnboarding (startResult : Except LndError Unit) : List OutMsg × String :=
  match onBeforeConnectLnd startResult with
  | (msgs, Except.ok _) =>
      (msgs, (fsmFire zapControllerTransitions "onboarding" "connectLnd" true).getD "onboarding")
  | (msgs, Except.error _) =>
      (msgs, (fsmFire zapControllerTransitions "onboarding" "connectLnd" false).getD "onboarding")

/-! ### `ZapController.shutdownNeutrino` -/

/-- The shutdown grace deadline: `setTimeout(..., 1000 * 10)`. -/
def shutdownGraceMs : Nat := 1000 * 10

/-- Minimum of two optional times (the settlement time of a promise
that several callbacks may try to resolve; in JS promise semantics the
first `resolve` call wins and later ones are no-ops). -/
def optMin (a b : Option Nat) : Option Nat :=
  match a, b with
  | none, b2 => b2
  | some x, none => some x
  | some x, some y => some (min x y)

/-- Oracle description of one `shutdownNeutrino()` invocation:
`configType` is `lndConfig.type`; `canTerminate` is whether
`this.lightning` exists and can claim the terminate transition;
`hasNeutrino` is
whether `this.neutrino` holds a process handle; `closeAt` is the time
(ms from the call) at which the neutrino `close` event fires, `none` if
it never does; `terminateRejectAt` is the time at which the
`lightning.terminate()` RPC promise rejects, `none` if it does not
reject. -/
structure ShutdownScenario where
  configType : String
  canTerminate : Bool
  hasNeutrino : Bool
  closeAt : Option Nat
  terminateRejectAt : Option Nat
deriving DecidableEq

/-- The observable outcome of `shutdownNeutrino()`. -/
structure ShutdownResult where
  rpcIssued : Bool
  timerStarted : Bool
  killed : Bool
  resolvedAt : Option Nat
deriving DecidableEq

/-- The method `ZapController.shutdownNeutrino`: return immediately unless running
a local node.  If the lightning connection can issue the graceful-stop
RPC (`terminate`), start the 10 s timer, register the `close` listener
and issue the RPC; the promise is resolved by whichever happens first:
the `close` event (which clears the timer), the timer firing (which
removes the `close` listener and, when a process handle exists, kills
the process and resolves), or the RPC rejecting (which, when a process
handle exists, kills the process and resolves).  A `close` event at or
after the timer deadline finds its listener removed and resolves
nothing.  With no terminable lightning connection, kill the process
immediately when a handle exists; in every non-graceful branch the
async function returns at once (`resolvedAt = some 0`) and no timer is
started. -/
def shutdownNeutrino (s : ShutdownScenario) : ShutdownResult :=
  if s.configType ≠ "local" then
    { rpcIssued := false, timerStarted := false, killed := false, resolvedAt := some 0 }
  else if s.canTerminate then
    let closeResolve : Option Nat :=
      match s.closeAt with
      | some tc => if tc < shutdownGraceMs then some tc else none
      | none => none
    let timerResolve : Option Nat :=
      if closeResolve.isNone && s.hasNeutrino then some shutdownGraceMs else none
    let rejectResolve : Option Nat :=
      match s.terminateRejectAt with
      | some tr => if s.hasNeutrino then some tr else none
      | none => none
    { rpcIssued := true
      timerStarted := true
      killed := (closeResolve.isNone && s.hasNeutrino) ||
        (s.terminateRejectAt.isSome && s.hasNeutrino)
      resolvedAt := optMin closeResolve (optMin timerResolve rejectResolve) }
  else if s.hasNeutrino then
    { rpcIssued := false, timerStarted := false, killed := true, resolvedAt := some 0 }
  else
    { rpcIssued := false, timerStarted := false, killed := false, resolvedAt := some 0 }

/-- Shutdown scenario: local node, terminable lightning connection,
process handle present, close event never fires, RPC never rejects. -/
def graceScenario : ShutdownScenario :=
  { configType := "local"
    canTerminate := true
    hasNeutrino := true
    closeAt := none
    terminateRejectAt := none }

/-- Shutdown scenario: local node, no terminable lightning connection,
process handle present. -/
def killScenario : ShutdownScenario :=
  { configType := "local"
    canTerminate := false
    hasNeutrino := true
    closeAt := none
    terminateRejectAt := none }

/-! ### `preload.js` `openExternal` whitelist guard -/

/-- The `WHITELISTED_DOMAINS` list from the preload script. -/
def WHITELISTED_DOMAINS : List String :=
  ["blockstream.info",
   "coinfaucet.eu",
   "insight.litecore.io",
   "live.blockcypher.com",
   "ln-zap.github.io",
   "testnet.litecore.io",
   "testnet.smartbit.com.au",
   "litecore.io",
   "www.smartbit.com.au"]

/-- The guard `openExternal(urlString)`: parse the URL (the node `url.parse`
hostname extraction is passed in as the `parseHostname` oracle, with
`none` for a parse result whose `hostname` is absent); do nothing
without a hostname; call `shell.openExternal` exactly when the hostname
is a member of `WHITELISTED_DOMAINS`.  Returns whether the external
page is opened. -/
def openExternal (parseHostname : String → Option String) (urlString : String) : Bool :=
  match parseHostname urlString with
  | none => false
  | some hostname => WHITELISTED_DOMAINS.contains hostname

/-! ## Theorems -/

/-- On a positive reference height, the selector value is the integer
division `((l + c) * 100) / (b * 2)`. -/
theorem syncPercentage_eq_div (b l c : Nat) (hb : b ≠ 0) :
    syncPercentage b l c = some ((((l + c) * 100) / (b * 2) : Nat) : ℤ) := by
  unfold syncPercentage
  rw [if_neg hb]
  congr 1
  rw [div_mul_eq_mul_div]
  have hnum : ((l : ℚ) + (c : ℚ)) * 100 = (((l + c) * 100 : Nat) : ℚ) := by push_cast; ring
  have hden : ((b : ℚ) * 2) = ((b * 2 : Nat) : ℚ) := by push_cast; ring
  rw [hnum, hden, Rat.floor_natCast_div_natCast]
  exact (Int.natCast_div _ _).symm

/-- C1: for all non-negative integers b, l, c with b > 0, the sync
percentage computed from reference chain height b, node block height l,
and cfilter height c equals floor((l + c) / (2 * b) * 100); when b = 0
the result is undefined (`none`) — not zero and not an error. -/
theorem C1_syncPercentage_formula (b l c : Nat) :
    (0 < b → syncPercentage b l c = some ((((l + c) * 100) / (2 * b) : Nat) : ℤ)) ∧
    (b = 0 → syncPercentage b l c = none) := by
  constructor
  · intro hb
    rw [syncPercentage_eq_div b l c (Nat.pos_iff_ne_zero.mp hb), Nat.mul_comm b 2]
  · intro hb
    subst hb
    rfl

/-- Witness for C1 at the spec scenario heights (1000, 500, 300):
percentage 40; and at reference height 0 the result is undefined. -/
theorem C1_syncPercentage_formula_witness :
    syncPercentage 1000 500 300 = some 40 ∧ syncPercentage 0 500 300 = none := by
  constructor
  · have h := (C1_syncPercentage_formula 1000 500 300).1 (by norm_num)
    rw [h]
    norm_num
  · exact (C1_syncPercentage_formula 0 500 300).2 rfl

/-- C7: for b > 0 the sync percentage is monotone non-decreasing in the
node block height holding b and c fixed, and monotone non-decreasing in
the cfilter height holding b and l fixed. -/
theorem C7_syncPercentage_monotone (b l l2 c c2 : Nat) (hb : 0 < b) :
    (l ≤ l2 → ∃ p q : ℤ, syncPercentage b l c = some p ∧
      syncPercentage b l2 c = some q ∧ p ≤ q) ∧
    (c ≤ c2 → ∃ p q : ℤ, syncPercentage b l c = some p ∧
      syncPercentage b l c2 = some q ∧ p ≤ q) := by
  have hbne : b ≠ 0 := Nat.pos_iff_ne_zero.mp hb
  constructor
  · intro hl
    refine ⟨_, _, syncPercentage_eq_div b l c hbne, syncPercentage_eq_div b l2 c hbne, ?_⟩
    exact_mod_cast Nat.div_le_div_right (Nat.mul_le_mul_right 100 (Nat.add_le_add_right hl c))
  · intro hc
    refine ⟨_, _, syncPercentage_eq_div b l c hbne, syncPercentage_eq_div b l c2 hbne, ?_⟩
    exact_mod_cast Nat.div_le_div_right (Nat.mul_le_mul_right 100 (Nat.add_le_add_left hc l))

/-- Witness for C7: at b = 1000, raising l from 500 to 1000 and c from
300 to 1000 never decreases the percentage. -/
theorem C7_syncPercentage_monotone_witness :
    (∃ p q : ℤ, syncPercentage 1000 500 300 = some p ∧
      syncPercentage 1000 1000 300 = some q ∧ p ≤ q) ∧
    (∃ p q : ℤ, syncPercentage 1000 500 300 = some p ∧
      syncPercentage 1000 500 1000 = some q ∧ p ≤ q) := by
  constructor
  · exact (C7_syncPercentage_monotone 1000 500 1000 300 300 (by norm_num)).1 (by norm_num)
  · exact (C7_syncPercentage_monotone 1000 500 500 300 1000 (by norm_num)).2 (by norm_num)

/-- C8: the lnd reducer returns the state unchanged on every action
whose type is not one of the eight handled action types; and each
handled action updates exactly its own field, leaving every other field
of the state as it was (stated as a record update of the old state). -/
theorem C8_lndReducer_frame (s : LndState) (a : ReduxAction) :
    (a.type ∉ handledTypes → lndReducer s a = s) ∧
    (a.type = SET_SYNC_STATUS_PENDING →
      lndReducer s a = { s with syncStatus := "pending" }) ∧
    (a.type = SET_SYNC_STATUS_WAITING →
      lndReducer s a = { s with syncStatus := "waiting" }) ∧
    (a.type = SET_SYNC_STATUS_IN_PROGRESS →
      lndReducer s a = { s with syncStatus := "in-progress" }) ∧
    (a.type = SET_SYNC_STATUS_COMPLETE →
      lndReducer s a = { s with syncStatus := "complete" }) ∧
    (a.type = RECEIVE_CURRENT_BLOCK_HEIGHT →
      lndReducer s a = { s with blockHeight := a.blockHeight }) ∧
    (a.type = RECEIVE_LND_BLOCK_HEIGHT →
      lndReducer s a = { s with lndBlockHeight := a.lndBlockHeight }) ∧
    (a.type = RECEIVE_LND_CFILTER_HEIGHT →
      lndReducer s a = { s with lndCfilterHeight := a.lndCfilterHeight }) ∧
    (a.type = SET_LIGHTNING_WALLET_ACTIVE →
      lndReducer s a = { s with lightningGrpcActive := true }) := by
  refine ⟨?_, ?_, ?_, ?_, ?_, ?_, ?_, ?_, ?_⟩
  · intro h
    simp only [handledTypes, List.mem_cons, List.not_mem_nil, or_false] at h
    push_neg at h
    obtain ⟨h1, h2, h3, h4, h5, h6, h7, h8⟩ := h
    simp [lndReducer, h1, h2, h3, h4, h5, h6, h7, h8]
  all_goals
    intro h
    simp [lndReducer, h, SET_SYNC_STATUS_PENDING, SET_SYNC_STATUS_WAITING,
      SET_SYNC_STATUS_IN_PROGRESS, SET_SYNC_STATUS_COMPLETE, RECEIVE_CURRENT_BLOCK_HEIGHT,
      RECEIVE_LND_BLOCK_HEIGHT, RECEIVE_LND_CFILTER_HEIGHT, SET_LIGHTNING_WALLET_ACTIVE]

/-- Witness for C8: an action with an unhandled type leaves the initial
state unchanged, and a node-block-height action changes only the
`lndBlockHeight` field. -/
theorem C8_lndReducer_frame_witness :
    lndReducer initialState { type := "SOME_OTHER_ACTION" } = initialState ∧
    lndReducer initialState { type := RECEIVE_LND_BLOCK_HEIGHT, lndBlockHeight := 42 } =
      { initialState with lndBlockHeight := 42 } := by
  constructor
  · exact (C8_lndReducer_frame initialState { type := "SOME_OTHER_ACTION" }).1 (by decide)
  · exact (C8_lndReducer_frame initialState
      { type := RECEIVE_LND_BLOCK_HEIGHT, lndBlockHeight := 42 }).2.2.2.2.2.2.1 rfl

/-- C9: on every sync-status event with a known (truthy) identity
pubkey, `lndSyncStatus` writes the per-identity hasSynced flag to the
durable wallet store — for waiting, in-progress and unknown statuses
alike, not only for complete; and any status other than waiting,
in-progress or complete dispatches the pending action, which the
reducer maps to syncStatus "pending". -/
theorem C9_lndSyncStatus_persists (pubKey status : String) (hpk : pubKey ≠ "") :
    SyncEffect.storeSet (pubKey ++ ".hasSynced") true ∈ lndSyncStatus (some pubKey) status ∧
    (status ≠ "waiting" → status ≠ "in-progress" → status ≠ "complete" →
      SyncEffect.dispatch { type := SET_SYNC_STATUS_PENDING } ∈
        lndSyncStatus (some pubKey) status ∧
      ∀ s : LndState,
        (lndReducer s { type := SET_SYNC_STATUS_PENDING }).syncStatus = "pending") := by
  constructor
  · simp [lndSyncStatus, hpk]
  · intro h1 h2 h3
    constructor
    · simp [lndSyncStatus, hpk, h1, h2, h3]
    · intro s
      simp [lndReducer]

/-- Witness for C9: with pubkey "pk1", a waiting event persists the
flag, and a status outside the three known strings dispatches the
pending action. -/
theorem C9_lndSyncStatus_persists_witness :
    SyncEffect.storeSet ("pk1" ++ ".hasSynced") true ∈ lndSyncStatus (some "pk1") "waiting" ∧
    (SyncEffect.dispatch { type := SET_SYNC_STATUS_PENDING } ∈
        lndSyncStatus (some "pk1") "bogus-status" ∧
      ∀ s : LndState,
        (lndReducer s { type := SET_SYNC_STATUS_PENDING }).syncStatus = "pending") := by
  constructor
  · exact (C9_lndSyncStatus_persists "pk1" "waiting" (by decide)).1
  · exact (C9_lndSyncStatus_persists "pk1" "bogus-status" (by decide)).2
      (by decide) (by decide) (by decide)

/-- C10: for every URL string, `openExternal` opens an external page
exactly when the URL parses to a hostname that is a member of the
whitelisted-domains list; with no hostname, or a hostname outside the
list, it does nothing. -/
theorem C10_openExternal_whitelist (parseHostname : String → Option String)
    (urlString : String) :
    openExternal parseHostname urlString = true ↔
      ∃ hostname, parseHostname urlString = some hostname ∧
        hostname ∈ WHITELISTED_DOMAINS := by
  unfold openExternal
  cases hp : parseHostname urlString with
  | none => simp
  | some h => simp

/-- Firing any transition from the "ready" state of the WalletUnlocker
machine: only `connect` is legal, moving to "connected" (or staying
"ready" when the connect attempt fails); anything else is an invalid
transition. -/
theorem fsmFire_ready (t : String) (hookOk : Bool) :
    fsmFire walletUnlockerTransitions "ready" t hookOk =
      if t = "connect" then some (if hookOk then "connected" else "ready") else none := by
  by_cases ht : t = "connect"
  · subst ht
    simp [fsmFire, walletUnlockerTransitions, List.find?]
  · rw [if_neg ht]
    have h1 : ("connect" == t) = false := by
      simp [Ne.symm ht]
    simp [fsmFire, walletUnlockerTransitions, List.find?, h1]

/-- Firing any transition from the "connected" state of the
WalletUnlocker machine: only `disconnect` is legal, moving to "ready"
(or staying "connected" when its hook fails); anything else is an
invalid transition. -/
theorem fsmFire_connected (t : String) (hookOk : Bool) :
    fsmFire walletUnlockerTransitions "connected" t hookOk =
      if t = "disconnect" then some (if hookOk then "ready" else "connected") else none := by
  by_cases ht : t = "disconnect"
  · subst ht
    simp [fsmFire, walletUnlockerTransitions, List.find?]
  · rw [if_neg ht]
    have h1 : ("disconnect" == t) = false := by
      simp [Ne.symm ht]
    simp [fsmFire, walletUnlockerTransitions, List.find?, h1]

/-- C4 counterexample to the claim as stated: the WalletUnlocker state
machine legally moves from its initial state "ready" to "connected" —
a state outside the claimed set idle/connecting/ready/disconnecting —
and the claimed transition idle -(connect)-> connecting does not exist:
the machine has no "idle" state, and firing connect from "idle" is an
invalid transition. -/
theorem C4_counterexample :
    fsmFire walletUnlockerTransitions "ready" "connect" true = some "connected" ∧
    "connected" ∉ ["idle", "connecting", "ready", "disconnecting"] ∧
    fsmFire walletUnlockerTransitions "idle" "connect" true = none := by
  refine ⟨by decide, by decide, by decide⟩

/-- C4 (amended): every WalletUnlocker state reachable through its
state machine from the initial state "ready" is one of "ready" (no
connection) and "connected"; the only legal state changes are
ready -(connect)-> connected and connected -(disconnect)-> ready, with
a failed connect attempt leaving the state at "ready"; every other
transition request is invalid, so states change only through these
transitions. -/
theorem C4_walletUnlocker_states :
    (∀ s, wuReachable s → s = "ready" ∨ s = "connected") ∧
    fsmFire walletUnlockerTransitions "ready" "connect" true = some "connected" ∧
    fsmFire walletUnlockerTransitions "ready" "connect" false = some "ready" ∧
    fsmFire walletUnlockerTransitions "connected" "disconnect" true = some "ready" ∧
    (∀ t hookOk, t ≠ "connect" →
      fsmFire walletUnlockerTransitions "ready" t hookOk = none) ∧
    (∀ t hookOk, t ≠ "disconnect" →
      fsmFire walletUnlockerTransitions "connected" t hookOk = none) := by
  refine ⟨?_, by decide, by decide, by decide, ?_, ?_⟩
  · intro s h
    induction h with
    | init => exact Or.inl rfl
    | step s t hookOk s2 hr hfire ih =>
      rcases ih with rfl | rfl
      · rw [fsmFire_ready] at hfire
        by_cases ht : t = "connect"
        · rw [if_pos ht] at hfire
          injection hfire with h2
          subst h2
          cases hookOk
          · exact Or.inl rfl
          · exact Or.inr rfl
        · rw [if_neg ht] at hfire
          exact absurd hfire (by simp)
      · rw [fsmFire_connected] at hfire
        by_cases ht : t = "disconnect"
        · rw [if_pos ht] at hfire
          injection hfire with h2
          subst h2
          cases hookOk
          · exact Or.inr rfl
          · exact Or.inl rfl
        · rw [if_neg ht] at hfire
          exact absurd hfire (by simp)
  · intro t hookOk ht
    rw [fsmFire_ready, if_neg ht]
  · intro t hookOk ht
    rw [fsmFire_connected, if_neg ht]

/-- Witness for C4 (amended): the initial state is in the allowed set,
and a disconnect request from "ready" is an invalid transition. -/
theorem C4_walletUnlocker_states_witness :
    ("ready" = "ready" ∨ "ready" = "connected") ∧
    fsmFire walletUnlockerTransitions "ready" "disconnect" true = none := by
  constructor
  · exact C4_walletUnlocker_states.1 "ready" wuReachable.init
  · exact C4_walletUnlocker_states.2.2.2.2.1 "disconnect" true (by decide)

/-- C5 counterexample to the claim as stated: disconnect() on a
freshly initialized (idle, state "ready") WalletUnlocker is not a
no-op — the state machine has no disconnect transition from "ready",
so the call fails with the invalid-transition error. -/
theorem C5_counterexample :
    wuDisconnect { state := walletUnlockerInit, hasService := false } =
      Except.error "transition is invalid in current state" := rfl

/-- C5 (amended): disconnect() is only legal in the "connected" state,
where it closes the channel exactly when one is open and returns the
connector to "ready"; calling disconnect() on an idle ("ready")
connector is an invalid transition that fails with an error, which is
why callers guard such calls with a can-disconnect check. -/
theorem C5_disconnect (w : WalletUnlockerObj) :
    (w.state = "connected" →
      wuDisconnect w = Except.ok ({ w with state := "ready" }, w.hasService)) ∧
    (w.state = "ready" →
      wuDisconnect w = Except.error "transition is invalid in current state") := by
  constructor
  · intro h
    unfold wuDisconnect
    rw [h, fsmFire_connected]
    simp [onBeforeDisconnect]
  · intro h
    unfold wuDisconnect
    rw [h, fsmFire_ready]
    simp

/-- Witness for C5 (amended): a connected instance with an open channel
disconnects to "ready" closing the channel; an idle instance fails. -/
theorem C5_disconnect_witness :
    wuDisconnect { state := "connected", hasService := true } =
      Except.ok ({ state := "ready", hasService := true }, true) ∧
    wuDisconnect { state := "ready", hasService := true } =
      Except.error "transition is invalid in current state" := by
  constructor
  · exact (C5_disconnect { state := "connected", hasService := true }).1 rfl
  · exact (C5_disconnect { state := "ready", hasService := true }).2 rfl

/-- C3: when the connectLnd transition fails, the error is classified
into host / cert / macaroon(token) kinds — with the gRPC UNIMPLEMENTED
code 12 reported through the host field — the classified object is
relayed to the presentation layer as the field-addressable
startLndError message, and the controller does not transition: it
remains in "onboarding".  Every failure (in particular an unreachable
host) yields an error object whose host field is set. -/
theorem C3_connectLnd_error_relay (e : LndError) :
    connectLndFromOnboarding (Except.error e) =
      ([OutMsg.startLndError (classifyConnectLndError e)], "onboarding") ∧
    (classifyConnectLndError e).host.isSome = true ∧
    (e.code = ErrCode.str "LND_GRPC_CERT_ERROR" →
      (classifyConnectLndError e).cert = some e.message) ∧
    (e.code = ErrCode.str "LND_GRPC_MACAROON_ERROR" →
      (classifyConnectLndError e).macaroon = some e.message) ∧
    (e.code = ErrCode.num 12 →
      (classifyConnectLndError e).host = some unlockFirstMessage) ∧
    (e.code = ErrCode.str "LND_GRPC_HOST_ERROR" →
      (classifyConnectLndError e).host =
        some ("Unable to connect to host: " ++ e.details.getD e.message)) := by
  refine ⟨?_, ?_, ?_, ?_, ?_, ?_⟩
  · simp [connectLndFromOnboarding, onBeforeConnectLnd, fsmFire, zapControllerTransitions,
      List.find?]
  · by_cases h12 : e.code = ErrCode.num 12 <;>
      simp [classifyConnectLndError, h12]
  · intro h
    simp [classifyConnectLndError, h]
  · intro h
    simp [classifyConnectLndError, h]
  · intro h
    simp [classifyConnectLndError, h]
  · intro h
    simp [classifyConnectLndError, h]

/-- Witness for C3: an unreachable-host failure is relayed as
startLndError with the host field set, and the controller state stays
"onboarding". -/
theorem C3_connectLnd_error_relay_witness :
    connectLndFromOnboarding (Except.error
      { code := ErrCode.str "LND_GRPC_HOST_ERROR", message := "unreachable",
        details := none }) =
      ([OutMsg.startLndError (classifyConnectLndError
        { code := ErrCode.str "LND_GRPC_HOST_ERROR", message := "unreachable",
          details := none })], "onboarding") ∧
    (classifyConnectLndError
      { code := ErrCode.str "LND_GRPC_HOST_ERROR", message := "unreachable",
        details := none }).host =
      some ("Unable to connect to host: " ++ "unreachable") := by
  constructor
  · exact (C3_connectLnd_error_relay
      { code := ErrCode.str "LND_GRPC_HOST_ERROR", message := "unreachable",
        details := none }).1
  · exact (C3_connectLnd_error_relay
      { code := ErrCode.str "LND_GRPC_HOST_ERROR", message := "unreachable",
        details := none }).2.2.2.2.2 rfl

/-- C6: every connect() attempt performs its steps in the order
validate-host, load proto, build credentials, open channel, wait for
ready (a sublist of the canonical order, always starting with the host
validation); the ready-wait is bounded by the 2-second deadline; and
when the ready-wait delivers an error the channel is closed and
connect() fails with that error. -/
theorem C6_connect_sequence (hostCheck sslCredsResult macaroonCredsResult : Except String Unit)
    (readyError : Option String) :
    (onBeforeConnect hostCheck sslCredsResult macaroonCredsResult readyError).events.Sublist
      connectEventOrder ∧
    (onBeforeConnect hostCheck sslCredsResult macaroonCredsResult readyError).events.head? =
      some ConnEvent.validateHost ∧
    (∀ m, readyError = some m → hostCheck = Except.ok () → sslCredsResult = Except.ok () →
      macaroonCredsResult = Except.ok () →
      (onBeforeConnect hostCheck sslCredsResult macaroonCredsResult readyError).events =
        connectEventOrder ∧
      (onBeforeConnect hostCheck sslCredsResult macaroonCredsResult readyError).result =
        Except.error (ConnError.readyWaitError m)) ∧
    connectDeadlineSeconds = 2 := by
  rcases hostCheck with mh | uh
  · refine ⟨?_, rfl, ?_, rfl⟩
    · exact (by decide :
        List.Sublist [ConnEvent.validateHost] connectEventOrder)
    · intro m hm hh
      exact absurd hh (by simp)
  · rcases sslCredsResult with ms | us
    · refine ⟨?_, rfl, ?_, rfl⟩
      · exact (by decide : List.Sublist
          [ConnEvent.validateHost, ConnEvent.loadProto, ConnEvent.buildCreds]
          connectEventOrder)
      · intro m hm hh hs
        exact absurd hs (by simp)
    · rcases macaroonCredsResult with mm | um
      · refine ⟨?_, rfl, ?_, rfl⟩
        · exact (by decide : List.Sublist
            [ConnEvent.validateHost, ConnEvent.loadProto, ConnEvent.buildCreds]
            connectEventOrder)
        · intro m hm hh hs hmac
          exact absurd hmac (by simp)
      · rcases readyError with _ | m
        · refine ⟨?_, rfl, ?_, rfl⟩
          · exact (by decide : List.Sublist
              [ConnEvent.validateHost, ConnEvent.loadProto, ConnEvent.buildCreds,
               ConnEvent.openChannel, ConnEvent.waitReady]
              connectEventOrder)
          · intro m hm
            exact absurd hm (by simp)
        · refine ⟨?_, rfl, ?_, rfl⟩
          · exact (by decide : List.Sublist connectEventOrder connectEventOrder)
          · intro m2 hm _ _ _
            injection hm with hm2
            subst hm2
            exact ⟨rfl, rfl⟩

/-- Witness for C6: with a valid host, good credentials and a
ready-wait error (deadline exceeded), the connect attempt performs the
full step sequence ending in the channel close, and fails with the
delivered error. -/
theorem C6_connect_sequence_witness :
    (onBeforeConnect (Except.ok ()) (Except.ok ()) (Except.ok ())
      (some "Deadline exceeded")).events = connectEventOrder ∧
    (onBeforeConnect (Except.ok ()) (Except.ok ()) (Except.ok ())
      (some "Deadline exceeded")).result =
      Except.error (ConnError.readyWaitError "Deadline exceeded") :=
  (C6_connect_sequence (Except.ok ()) (Except.ok ()) (Except.ok ())
    (some "Deadline exceeded")).2.2.1 "Deadline exceeded" rfl rfl rfl rfl

/-- C2: for a local-node shutdown with a process handle present (as in
every reachable running state): when a live lightning connection
capable of graceful termination exists, the graceful-stop RPC is
issued, the grace timer is started, and — when the process-exit event
never arrives — the promise settles (exactly once, by JS promise
semantics) at a time no later than the 10-second grace deadline with
the process forcibly killed; when no such connection exists, the
process is killed immediately (settlement time 0) with no deadline
timer started; and in all cases the returned promise settles, never
hanging indefinitely. -/
theorem C2_shutdownNeutrino_bounded (s : ShutdownScenario)
    (hlocal : s.configType = "local") (hn : s.hasNeutrino = true) :
    (s.canTerminate = true → s.closeAt = none →
      (shutdownNeutrino s).rpcIssued = true ∧
      (shutdownNeutrino s).timerStarted = true ∧
      (shutdownNeutrino s).killed = true ∧
      ∃ t, (shutdownNeutrino s).resolvedAt = some t ∧ t ≤ shutdownGraceMs) ∧
    (s.canTerminate = false →
      (shutdownNeutrino s).rpcIssued = false ∧
      (shutdownNeutrino s).timerStarted = false ∧
      (shutdownNeutrino s).killed = true ∧
      (shutdownNeutrino s).resolvedAt = some 0) ∧
    (shutdownNeutrino s).resolvedAt.isSome = true := by
  refine ⟨?_, ?_, ?_⟩
  · intro hct hclose
    rcases htr : s.terminateRejectAt with _ | tr
    · refine ⟨?_, ?_, ?_, shutdownGraceMs, ?_, le_refl _⟩ <;>
        simp [shutdownNeutrino, hlocal, hct, hclose, hn, htr, optMin]
    · refine ⟨?_, ?_, ?_, min shutdownGraceMs tr, ?_, Nat.min_le_left _ _⟩ <;>
        simp [shutdownNeutrino, hlocal, hct, hclose, hn, htr, optMin]
  · intro hct
    refine ⟨?_, ?_, ?_, ?_⟩ <;> simp [shutdownNeutrino, hlocal, hct, hn]
  · rcases hct : s.canTerminate
    · simp [shutdownNeutrino, hlocal, hct, hn]
    · rcases hcl : s.closeAt with _ | tc
      · rcases htr : s.terminateRejectAt with _ | tr <;>
          simp [shutdownNeutrino, hlocal, hct, hcl, htr, hn, optMin]
      · by_cases hlt : tc < shutdownGraceMs <;>
          rcases htr : s.terminateRejectAt with _ | tr <;>
            simp [shutdownNeutrino, hlocal, hct, hcl, htr, hn, hlt, optMin]

/-- Witness for C2: the graceful scenario whose close event never
fires settles at the 10-second deadline with the process killed; the
no-connection scenario kills immediately with no timer. -/
theorem C2_shutdownNeutrino_bounded_witness :
    ((shutdownNeutrino graceScenario).rpcIssued = true ∧
      (shutdownNeutrino graceScenario).timerStarted = true ∧
      (shutdownNeutrino graceScenario).killed = true ∧
      ∃ t, (shutdownNeutrino graceScenario).resolvedAt = some t ∧ t ≤ shutdownGraceMs) ∧
    ((shutdownNeutrino killScenario).rpcIssued = false ∧
      (shutdownNeutrino killScenario).timerStarted = false ∧
      (shutdownNeutrino killScenario).killed = true ∧
      (shutdownNeutrino killScenario).resolvedAt = some 0) := by
  constructor
  · exact (C2_shutdownNeutrino_bounded graceScenario rfl rfl).1 rfl rfl
  · exact (C2_shutdownNeutrino_bounded killScenario rfl rfl).2.1 rfl
